import Mathlib

/-!
# Verification of the authentication/session subsystem

Shallow embedding of `AuthService` (src/services/auth.service.ts) of the
OnlineHealthConsultation backend: registration, login, refresh-token rotation
with reuse detection, and logout.  The persistent Prisma store (`user` and
`userSession` tables) is modelled as explicit state (`Store`) threaded through
each operation; external cryptographic capabilities (SHA-256 token hashing,
JWT signing/verification, bcrypt password comparison) are modelled as an
abstract `Crypto` record, exactly as the spec treats them ("consumed as an
external capability").  Time is in milliseconds since the epoch (`Int`), the
unit of JavaScript `Date`.
-/

namespace Auth

/-- User roles, from the Prisma enum `Role` (`PATIENT`, `DOCTOR`, `ADMIN`). -/
inductive Role where
  | PATIENT
  | DOCTOR
  | ADMIN
deriving DecidableEq, Repr

/-- A row of the `users` table (fields referenced by the auth subsystem;
role-specific profile sub-records live in separate tables owned by the
out-of-scope user-management code and are not read by any auth operation). -/
structure User where
  id : String
  email : String
  passwordHash : String
  fullName : String
  role : Role
  isActive : Bool
deriving DecidableEq, Repr

/-- A row of the `user_sessions` table, as created by
`AuthService.createSession`: only the SHA-256 hash of the refresh token is
stored, never the raw token. -/
structure Session where
  id : Nat
  userId : String
  refreshTokenHash : String
  expiresAt : Int
  revokedAt : Option Int
  userAgent : Option String
  ipAddress : Option String
deriving DecidableEq, Repr

/-- The persistent store the service mutates.  `nextSessionId` models the
database generating a fresh primary key for each inserted session row. -/
structure Store where
  users : List User
  sessions : List Session
  nextSessionId : Nat
deriving DecidableEq, Repr

/-- Structure modelling `AppError(message, statusCode, code)` from the error middleware. -/
structure AppError where
  message : String
  status : Nat
  code : String
deriving DecidableEq, Repr

/-- The claims embedded in access and refresh tokens (`{id, email, role}`). -/
structure TokenPayload where
  id : String
  email : String
  role : Role
deriving DecidableEq, Repr

/-- External cryptographic capabilities consumed by the service:
`crypto.createHash('sha256')` for `hashToken`, the jsonwebtoken wrappers
`signAccessToken` / `signRefreshToken` / `verifyRefreshToken`, and the bcrypt
wrappers `hashPassword` / `comparePassword`.  `verifyRefreshToken` returns
`none` where the source `throw`s (invalid signature or JWT-expired). -/
structure Crypto where
  hashToken : String → String
  signAccessToken : TokenPayload → String
  signRefreshToken : TokenPayload → String
  verifyRefreshToken : String → Option TokenPayload
  hashPassword : String → String
  comparePassword : String → String → Bool

/-- Seven days in milliseconds: `expiresAt.setDate(expiresAt.getDate() + 7)`
in `createSession` and in `refresh` adds 7 days to the current date. -/
def sevenDaysMs : Int := 604800000

/-- Embeds `prisma.user.findUnique` on the unique `email` column. -/
def findUserByEmail (users : List User) (email : String) : Option User :=
  users.find? (fun u => u.email == email)

/-- Embeds `prisma.userSession.findUnique` on the unique `refreshTokenHash` column. -/
def findSessionByHash (sessions : List Session) (h : String) : Option Session :=
  sessions.find? (fun s => s.refreshTokenHash == h)

/-- Embeds `AuthService.createSession`: insert a session row holding
`refreshTokenHash = hashToken(refreshToken)` and `expiresAt = now + 7 days`. -/
def createSession (c : Crypto) (st : Store) (userId : String)
    (refreshToken : String) (userAgent ipAddress : Option String)
    (now : Int) : Store :=
  let refreshTokenHash := c.hashToken refreshToken
  let expiresAt := now + sevenDaysMs
  { st with
    sessions := st.sessions ++
      [{ id := st.nextSessionId, userId := userId,
         refreshTokenHash := refreshTokenHash, expiresAt := expiresAt,
         revokedAt := none, userAgent := userAgent, ipAddress := ipAddress }],
    nextSessionId := st.nextSessionId + 1 }

/-- Embeds `AuthService.revokeAllUserSessions`: an `updateMany` setting `revokedAt = now` on every session of the user whose `revokedAt` is null. -/
def revokeAllUserSessions (st : Store) (userId : String) (now : Int) : Store :=
  { st with
    sessions := st.sessions.map (fun s =>
      if s.userId == userId && s.revokedAt.isNone then
        { s with revokedAt := some now }
      else s) }

/-- Embeds `prisma.userSession.update` setting `revokedAt = now` on the row with the given unique primary key: the revoke half of the rotation transaction. -/
def revokeSessionById (sessions : List Session) (sid : Nat) (now : Int) :
    List Session :=
  sessions.map (fun s =>
    if s.id == sid then { s with revokedAt := some now } else s)

/-- The `role` field of `RegisterInput`: the service input type restricts it
to `'PATIENT' | 'DOCTOR'`. -/
inductive RegisterRole where
  | PATIENT
  | DOCTOR
deriving DecidableEq, Repr

/-- Embedding of a `RegisterRole` into the database `Role` enum. -/
def RegisterRole.toRole : RegisterRole → Role
  | .PATIENT => .PATIENT
  | .DOCTOR => .DOCTOR

/-- Structure `RegisterInput` from auth.service.ts (optional profile payload carried
along; it feeds only the out-of-scope profile sub-records). -/
structure RegisterInput where
  email : String
  password : String
  fullName : String
  role : RegisterRole
  specialty : Option String := none
  bio : Option String := none
  dateOfBirth : Option Int := none
  gender : Option String := none
  phone : Option String := none
  address : Option String := none
deriving DecidableEq, Repr

/-- Structure `LoginInput` from auth.service.ts. -/
structure LoginInput where
  email : String
  password : String
deriving DecidableEq, Repr

/-- The user projection returned by `register` and `login` (profile
sub-records elided; they are read-only joins, not auth state). -/
structure AuthUserView where
  id : String
  email : String
  fullName : String
  role : Role
deriving DecidableEq, Repr

/-- Result of `register` / `login`: both tokens plus the user projection. -/
structure AuthResult where
  accessToken : String
  refreshToken : String
  user : AuthUserView
deriving DecidableEq, Repr

/-- Result of `refresh`: the rotated token pair (no user object). -/
structure RefreshResult where
  accessToken : String
  refreshToken : String
deriving DecidableEq, Repr

/-- Result of `logout`. -/
structure LogoutResult where
  message : String
deriving DecidableEq, Repr

/-- The `role` branch of the request-validation `registerSchema`
(auth.controller.ts): `z.enum(['PATIENT', 'DOCTOR'])` — any other string,
including `"ADMIN"`, is rejected by validation. -/
def parseRegisterRole : String → Option RegisterRole
  | "PATIENT" => some RegisterRole.PATIENT
  | "DOCTOR" => some RegisterRole.DOCTOR
  | _ => none

/-- Embeds `AuthService.register`.  `newUserId` models the database generating the
primary key of the created user; `now` is the clock reading at the call. -/
def register (c : Crypto) (st : Store) (input : RegisterInput)
    (userAgent ipAddress : Option String) (now : Int) (newUserId : String) :
    Except AppError AuthResult × Store :=
  match findUserByEmail st.users input.email with
  | some _ =>
      (Except.error ⟨"User with this email already exists", 409, "USER_EXISTS"⟩, st)
  | none =>
      let passwordHash := c.hashPassword input.password
      let user : User :=
        { id := newUserId, email := input.email, passwordHash := passwordHash,
          fullName := input.fullName, role := input.role.toRole,
          isActive := true }
      let st1 : Store := { st with users := st.users ++ [user] }
      let accessToken :=
        c.signAccessToken { id := user.id, email := user.email, role := user.role }
      let refreshToken :=
        c.signRefreshToken { id := user.id, email := user.email, role := user.role }
      let st2 := createSession c st1 user.id refreshToken userAgent ipAddress now
      (Except.ok
        { accessToken := accessToken, refreshToken := refreshToken,
          user := { id := user.id, email := user.email,
                    fullName := user.fullName, role := user.role } }, st2)

/-- Embeds `AuthService.login`. -/
def login (c : Crypto) (st : Store) (input : LoginInput)
    (userAgent ipAddress : Option String) (now : Int) :
    Except AppError AuthResult × Store :=
  match findUserByEmail st.users input.email with
  | none =>
      (Except.error ⟨"Invalid credentials", 401, "INVALID_CREDENTIALS"⟩, st)
  | some user =>
      if !user.isActive then
        (Except.error ⟨"Account is deactivated", 403, "ACCOUNT_DEACTIVATED"⟩, st)
      else if !c.comparePassword input.password user.passwordHash then
        (Except.error ⟨"Invalid credentials", 401, "INVALID_CREDENTIALS"⟩, st)
      else
        let accessToken :=
          c.signAccessToken { id := user.id, email := user.email, role := user.role }
        let refreshToken :=
          c.signRefreshToken { id := user.id, email := user.email, role := user.role }
        let st1 := createSession c st user.id refreshToken userAgent ipAddress now
        (Except.ok
          { accessToken := accessToken, refreshToken := refreshToken,
            user := { id := user.id, email := user.email,
                      fullName := user.fullName, role := user.role } }, st1)

/-- Embeds `AuthService.refresh` with token rotation.  `txOk` models the outcome of
the single `prisma.$transaction([update revoke-old, create insert-new])`:
Prisma transactions are all-or-nothing, so on failure (`txOk = false`) the
store is left exactly as it was before the transaction (no earlier statement
of `refresh` writes to the store) and the caller receives an error. -/
def refresh (c : Crypto) (st : Store) (refreshToken : String)
    (userAgent ipAddress : Option String) (now : Int) (txOk : Bool) :
    Except AppError RefreshResult × Store :=
  match c.verifyRefreshToken refreshToken with
  | none =>
      (Except.error ⟨"Invalid refresh token", 401, "INVALID_REFRESH_TOKEN"⟩, st)
  | some payload =>
      let refreshTokenHash := c.hashToken refreshToken
      match findSessionByHash st.sessions refreshTokenHash with
      | none =>
          (Except.error ⟨"Refresh token not found", 401, "INVALID_REFRESH_TOKEN"⟩, st)
      | some session =>
          if session.expiresAt < now then
            (Except.error ⟨"Refresh token expired", 401, "REFRESH_TOKEN_EXPIRED"⟩, st)
          else if session.revokedAt.isSome then
            (Except.error
              ⟨"Token reuse detected - all sessions revoked for security", 401,
                "TOKEN_REUSE_DETECTED"⟩,
              revokeAllUserSessions st session.userId now)
          else
            let newAccessToken :=
              c.signAccessToken
                { id := payload.id, email := payload.email, role := payload.role }
            let newRefreshToken :=
              c.signRefreshToken
                { id := payload.id, email := payload.email, role := payload.role }
            let newRefreshTokenHash := c.hashToken newRefreshToken
            let newExpiresAt := now + sevenDaysMs
            if txOk then
              (Except.ok
                { accessToken := newAccessToken, refreshToken := newRefreshToken },
                { st with
                  sessions := revokeSessionById st.sessions session.id now ++
                    [{ id := st.nextSessionId, userId := session.userId,
                       refreshTokenHash := newRefreshTokenHash,
                       expiresAt := newExpiresAt, revokedAt := none,
                       userAgent := userAgent, ipAddress := ipAddress }],
                  nextSessionId := st.nextSessionId + 1 })
            else
              (Except.error ⟨"Transaction failed", 500, "INTERNAL_ERROR"⟩, st)

/-- Embeds `AuthService.logout`: an `updateMany` setting `revokedAt = now` on every not-yet-revoked session whose hash matches, followed by an unconditional success message. -/
def logout (c : Crypto) (st : Store) (refreshToken : String) (now : Int) :
    Except AppError LogoutResult × Store :=
  let refreshTokenHash := c.hashToken refreshToken
  (Except.ok { message := "Logged out successfully" },
    { st with
      sessions := st.sessions.map (fun s =>
        if s.refreshTokenHash == refreshTokenHash && s.revokedAt.isNone then
          { s with revokedAt := some now }
        else s) })

/-! ## Helper lemmas on the session store -/

/-- Finding in a mapped list whose mapping preserves the search predicate
finds the image of what the unmapped search finds. -/
theorem find_map_pres {α : Type} (f : α → α) (p : α → Bool)
    (hp : ∀ x, p (f x) = p x) (l : List α) :
    (l.map f).find? p = (l.find? p).map f := by
  have hpf : p ∘ f = p := funext hp
  rw [List.find?_map, hpf]

/-- Revoking a session by id does not change which session a hash lookup
finds; the found session merely carries the conditional revocation. -/
theorem findSessionByHash_revokeById (l : List Session) (sid : Nat)
    (now : Int) (h : String) :
    findSessionByHash (revokeSessionById l sid now) h =
      (findSessionByHash l h).map
        (fun s => if s.id == sid then { s with revokedAt := some now } else s) := by
  unfold findSessionByHash revokeSessionById
  apply find_map_pres
  intro s
  by_cases hs : (s.id == sid) = true <;> simp [hs]

/-- Bulk revocation does not change which session a hash lookup finds;
the found session merely carries the conditional revocation. -/
theorem findSessionByHash_revokeAll (st : Store) (uid : String)
    (now : Int) (h : String) :
    findSessionByHash (revokeAllUserSessions st uid now).sessions h =
      (findSessionByHash st.sessions h).map
        (fun s =>
          if s.userId == uid && s.revokedAt.isNone then
            { s with revokedAt := some now }
          else s) := by
  unfold revokeAllUserSessions
  apply find_map_pres
  intro s
  by_cases hs : (s.userId == uid && s.revokedAt.isNone) = true <;> simp [hs]

/-- After `revokeAllUserSessions`, every session of that user is revoked. -/
theorem revokeAll_revokes_user (st : Store) (uid : String) (now : Int) :
    ∀ s ∈ (revokeAllUserSessions st uid now).sessions,
      s.userId = uid → s.revokedAt ≠ none := by
  intro s hs hu
  unfold revokeAllUserSessions at hs
  simp only [List.mem_map] at hs
  obtain ⟨t, _, rfl⟩ := hs
  by_cases hc : (t.userId == uid && t.revokedAt.isNone) = true
  · simp [hc]
  · simp only [hc, if_neg] at hu ⊢
    simp only [Bool.and_eq_true, beq_iff_eq, Option.isNone_iff_eq_none] at hc
    intro hnone
    exact hc ⟨hu, hnone⟩

/-! ## Concrete instances used to evaluate the theorems -/

/-- A concrete instantiation of the external crypto capabilities (the
theorems hold for every `Crypto`; this one makes the hypotheses decidable
on closed inputs). -/
def exCrypto : Crypto where
  hashToken := fun t => t ++ "#"
  signAccessToken := fun p => "acc:" ++ p.id
  signRefreshToken := fun p => "ref:" ++ p.id
  verifyRefreshToken := fun t =>
    if t == "tokA" || t == "ref:u1" then
      some { id := "u1", email := "alice@x.com", role := Role.PATIENT }
    else none
  hashPassword := fun pw => pw ++ "!"
  comparePassword := fun pw h => pw ++ "!" == h

/-- The token payload signed for the concrete user below. -/
def exPayload : TokenPayload :=
  { id := "u1", email := "alice@x.com", role := Role.PATIENT }

/-- A concrete active user. -/
def exUser : User :=
  { id := "u1", email := "alice@x.com", passwordHash := "secret1!",
    fullName := "Alice", role := Role.PATIENT, isActive := true }

/-- A concrete session for the raw token `"tokA"`, issued at time 0. -/
def exSessionA : Session :=
  { id := 0, userId := "u1", refreshTokenHash := "tokA#",
    expiresAt := sevenDaysMs, revokedAt := none,
    userAgent := none, ipAddress := none }

/-- A concrete store holding the user and their active session. -/
def exStore : Store :=
  { users := [exUser], sessions := [exSessionA], nextSessionId := 1 }

/-! ## Claim theorems -/

/-- C3: whenever the session matching the presented refresh token has
`expiresAt` before the current time, `refresh` fails with
`REFRESH_TOKEN_EXPIRED` (status 401) and leaves the store unchanged, even
though the token's own signature verified (`verifyRefreshToken` succeeded). -/
theorem refresh_expired_session_fails (c : Crypto) (st : Store) (t : String)
    (ua ip : Option String) (now : Int) (txOk : Bool) (p : TokenPayload)
    (s : Session)
    (hver : c.verifyRefreshToken t = some p)
    (hfind : findSessionByHash st.sessions (c.hashToken t) = some s)
    (hexp : s.expiresAt < now) :
    refresh c st t ua ip now txOk =
      (Except.error ⟨"Refresh token expired", 401, "REFRESH_TOKEN_EXPIRED"⟩, st) := by
  simp [refresh, hver, hfind, hexp]

/-- Witness for C3: the session issued at time 0 expires at `sevenDaysMs`;
at time 700000000 the (still signature-valid) token is rejected as expired. -/
theorem refresh_expired_session_fails_witness :
    refresh exCrypto exStore "tokA" none none 700000000 true =
      (Except.error ⟨"Refresh token expired", 401, "REFRESH_TOKEN_EXPIRED"⟩,
        exStore) :=
  refresh_expired_session_fails exCrypto exStore "tokA" none none 700000000 true
    exPayload exSessionA (by decide) (by decide) (by decide)

/-- C6: a login with a non-existent email and a login with an existing,
active user's email but a wrong password fail with the exact same
`AppError`: message `"Invalid credentials"`, code `INVALID_CREDENTIALS`,
status 401. -/
theorem login_no_enumeration (c : Crypto) (st : Store)
    (email1 email2 pw1 pw2 : String) (ua ip : Option String) (now : Int)
    (u : User)
    (h1 : findUserByEmail st.users email1 = none)
    (h2 : findUserByEmail st.users email2 = some u)
    (hact : u.isActive = true)
    (hpw : c.comparePassword pw2 u.passwordHash = false) :
    (login c st ⟨email1, pw1⟩ ua ip now).1 =
        Except.error ⟨"Invalid credentials", 401, "INVALID_CREDENTIALS"⟩ ∧
      (login c st ⟨email2, pw2⟩ ua ip now).1 =
        Except.error ⟨"Invalid credentials", 401, "INVALID_CREDENTIALS"⟩ := by
  constructor
  · simp [login, h1]
  · simp [login, h2, hact, hpw]

/-- Witness for C6: `bob@x.com` does not exist, `alice@x.com` exists and is
active but the password is wrong; both logins produce the identical error. -/
theorem login_no_enumeration_witness :
    (login exCrypto exStore ⟨"bob@x.com", "whatever"⟩ none none 0).1 =
        Except.error ⟨"Invalid credentials", 401, "INVALID_CREDENTIALS"⟩ ∧
      (login exCrypto exStore ⟨"alice@x.com", "wrong"⟩ none none 0).1 =
        Except.error ⟨"Invalid credentials", 401, "INVALID_CREDENTIALS"⟩ :=
  login_no_enumeration exCrypto exStore "bob@x.com" "alice@x.com"
    "whatever" "wrong" none none 0 exUser
    (by decide) (by decide) (by decide) (by decide)

/-- Applying the logout revocation step twice gives the same store as
applying it once: the first pass revokes every active matching session, so
the second pass matches nothing. -/
theorem logout_twice_store (c : Crypto) (st : Store) (t : String)
    (now1 now2 : Int) :
    (logout c (logout c st t now1).2 t now2).2 = (logout c st t now1).2 := by
  unfold logout
  simp only [List.map_map]
  congr 1
  apply List.map_congr_left
  intro s _
  by_cases hh : (s.refreshTokenHash == c.hashToken t) = true
  · by_cases hr : s.revokedAt.isNone = true
    · simp [Function.comp, hh, hr]
    · simp [Function.comp, hh, hr]
  · simp [Function.comp, hh]

/-- C7: logout is idempotent.  The first call succeeds (for any token,
present, absent, or already revoked), a second call returns the same success
result and leaves the store exactly as the first call left it, and after the
first call every session matching the token's hash is revoked. -/
theorem logout_idempotent (c : Crypto) (st : Store) (t : String)
    (now1 now2 : Int) :
    (logout c st t now1).1 = Except.ok ⟨"Logged out successfully"⟩ ∧
      (logout c (logout c st t now1).2 t now2).1 = (logout c st t now1).1 ∧
      (logout c (logout c st t now1).2 t now2).2 = (logout c st t now1).2 ∧
      ∀ s ∈ (logout c st t now1).2.sessions,
        s.refreshTokenHash = c.hashToken t → s.revokedAt ≠ none := by
  refine ⟨rfl, rfl, logout_twice_store c st t now1 now2, ?_⟩
  intro s hs heq
  unfold logout at hs
  simp only [List.mem_map] at hs
  obtain ⟨u, hu, rfl⟩ := hs
  by_cases hc : (u.refreshTokenHash == c.hashToken t && u.revokedAt.isNone) = true
  · simp [hc]
  · simp only [hc, if_neg, Bool.not_eq_true] at heq ⊢
    simp only [Bool.and_eq_true, beq_iff_eq, Option.isNone_iff_eq_none] at hc
    intro hnone
    exact hc ⟨heq, hnone⟩

/-- Witness for C7 at a concrete store and token. -/
theorem logout_idempotent_witness :
    (logout exCrypto exStore "tokA" 5).1 =
        Except.ok ⟨"Logged out successfully"⟩ ∧
      (logout exCrypto (logout exCrypto exStore "tokA" 5).2 "tokA" 9).1 =
        (logout exCrypto exStore "tokA" 5).1 ∧
      (logout exCrypto (logout exCrypto exStore "tokA" 5).2 "tokA" 9).2 =
        (logout exCrypto exStore "tokA" 5).2 ∧
      ∀ s ∈ (logout exCrypto exStore "tokA" 5).2.sessions,
        s.refreshTokenHash = exCrypto.hashToken "tokA" → s.revokedAt ≠ none :=
  logout_idempotent exCrypto exStore "tokA" 5 9

/-- C10: every user added to the store by `register` has a role other than
`ADMIN` (the `RegisterInput` type only admits `PATIENT` and `DOCTOR`), and
the request-validation schema rejects the string `"ADMIN"` outright. -/
theorem register_never_creates_admin :
    (∀ (c : Crypto) (st : Store) (input : RegisterInput)
        (ua ip : Option String) (now : Int) (uid : String) (u : User),
        u ∈ (register c st input ua ip now uid).2.users → u ∉ st.users →
          u.role ≠ Role.ADMIN) ∧
      parseRegisterRole "ADMIN" = none := by
  refine ⟨?_, rfl⟩
  intro c st input ua ip now uid u hmem hnot
  unfold register at hmem
  cases hf : findUserByEmail st.users input.email with
  | some w =>
      rw [hf] at hmem
      exact absurd hmem hnot
  | none =>
      rw [hf] at hmem
      simp only [createSession, List.mem_append, List.mem_singleton] at hmem
      rcases hmem with h | h
      · exact absurd h hnot
      · subst h
        cases hr : input.role <;> simp [RegisterRole.toRole, hr]

/-- Witness for C10: registering a DOCTOR into an empty store produces a
user whose role is not ADMIN. -/
theorem register_never_creates_admin_witness :
    ({ id := "u2", email := "bob@x.com", passwordHash := "pw!",
       fullName := "Bob", role := Role.DOCTOR, isActive := true } : User).role ≠
      Role.ADMIN :=
  register_never_creates_admin.1 exCrypto ⟨[], [], 0⟩
    { email := "bob@x.com", password := "pw", fullName := "Bob",
      role := RegisterRole.DOCTOR }
    none none 0 "u2"
    { id := "u2", email := "bob@x.com", passwordHash := "pw!",
      fullName := "Bob", role := Role.DOCTOR, isActive := true }
    (by decide) (by decide)

/-- C9: `refresh` never reads the `users` table.  Two runs over stores with
identical sessions but arbitrarily different users (in particular, differing
only in `isActive`) produce the same outcome and the same session state; and
concretely, a deactivated user holding a live session still obtains a fresh
token pair. -/
theorem refresh_ignores_user_record (c : Crypto) (users : List User)
    (sess : List Session) (nid : Nat) (t : String) (ua ip : Option String)
    (now : Int) (p : TokenPayload) (s : Session) (u : User)
    (hv : c.verifyRefreshToken t = some p)
    (hfind : findSessionByHash sess (c.hashToken t) = some s)
    (hexp : ¬ s.expiresAt < now) (hrev : s.revokedAt = none)
    (hu : u ∈ users) (hinact : u.isActive = false) :
    (∀ (users1 users2 : List User) (txOk : Bool),
        (refresh c ⟨users1, sess, nid⟩ t ua ip now txOk).1 =
            (refresh c ⟨users2, sess, nid⟩ t ua ip now txOk).1 ∧
          (refresh c ⟨users1, sess, nid⟩ t ua ip now txOk).2.sessions =
            (refresh c ⟨users2, sess, nid⟩ t ua ip now txOk).2.sessions ∧
          (refresh c ⟨users1, sess, nid⟩ t ua ip now txOk).2.nextSessionId =
            (refresh c ⟨users2, sess, nid⟩ t ua ip now txOk).2.nextSessionId) ∧
      (refresh c ⟨users, sess, nid⟩ t ua ip now true).1 =
        Except.ok
          { accessToken :=
              c.signAccessToken { id := p.id, email := p.email, role := p.role },
            refreshToken :=
              c.signRefreshToken { id := p.id, email := p.email, role := p.role } } := by
  constructor
  · intro users1 users2 txOk
    unfold refresh
    cases c.verifyRefreshToken t with
    | none => exact ⟨rfl, rfl, rfl⟩
    | some q =>
        simp only
        cases findSessionByHash sess (c.hashToken t) with
        | none => exact ⟨rfl, rfl, rfl⟩
        | some w =>
            by_cases he : w.expiresAt < now
            · simp [he]
            · by_cases hw : w.revokedAt.isSome = true
              · simp [he, hw, revokeAllUserSessions]
              · cases txOk <;> simp [he, hw]
  · simp [refresh, hv, hfind, hexp, hrev]

/-- A concrete register input used by several evaluations. -/
def exRegInput : RegisterInput :=
  { email := "bob@x.com", password := "pw", fullName := "Bob",
    role := RegisterRole.DOCTOR }

/-- Inversion of a successful `register`: the store gains exactly one session
row, holding the hash of the refresh token that is returned to the caller. -/
theorem register_ok_inv (c : Crypto) (st : Store) (input : RegisterInput)
    (ua ip : Option String) (now : Int) (uid : String)
    (res : AuthResult) (st' : Store)
    (heq : register c st input ua ip now uid = (Except.ok res, st')) :
    res.refreshToken =
        c.signRefreshToken
          { id := uid, email := input.email, role := input.role.toRole } ∧
      st'.users = st.users ++
        [{ id := uid, email := input.email,
           passwordHash := c.hashPassword input.password,
           fullName := input.fullName, role := input.role.toRole,
           isActive := true }] ∧
      st'.sessions = st.sessions ++
        [{ id := st.nextSessionId, userId := uid,
           refreshTokenHash := c.hashToken res.refreshToken,
           expiresAt := now + sevenDaysMs, revokedAt := none,
           userAgent := ua, ipAddress := ip }] := by
  unfold register at heq
  cases hf : findUserByEmail st.users input.email with
  | some w => rw [hf] at heq; simp at heq
  | none =>
      rw [hf] at heq
      simp only [createSession, Prod.mk.injEq, Except.ok.injEq] at heq
      obtain ⟨hres, hst⟩ := heq
      subst hres
      subst hst
      exact ⟨rfl, rfl, rfl⟩

/-- Inversion of a successful `login`: the store gains exactly one session
row, holding the hash of the refresh token that is returned to the caller. -/
theorem login_ok_inv (c : Crypto) (st : Store) (input : LoginInput)
    (ua ip : Option String) (now : Int) (res : AuthResult) (st' : Store)
    (heq : login c st input ua ip now = (Except.ok res, st')) :
    ∃ u, findUserByEmail st.users input.email = some u ∧
      res.refreshToken =
        c.signRefreshToken { id := u.id, email := u.email, role := u.role } ∧
      st'.users = st.users ∧
      st'.sessions = st.sessions ++
        [{ id := st.nextSessionId, userId := u.id,
           refreshTokenHash := c.hashToken res.refreshToken,
           expiresAt := now + sevenDaysMs, revokedAt := none,
           userAgent := ua, ipAddress := ip }] := by
  cases hf : findUserByEmail st.users input.email with
  | none =>
      have hcomp : login c st input ua ip now =
          (Except.error ⟨"Invalid credentials", 401, "INVALID_CREDENTIALS"⟩, st) := by
        simp [login, hf]
      rw [hcomp] at heq
      simp at heq
  | some u =>
      cases ha : u.isActive with
      | false =>
          have hcomp : login c st input ua ip now =
              (Except.error ⟨"Account is deactivated", 403, "ACCOUNT_DEACTIVATED"⟩, st) := by
            simp [login, hf, ha]
          rw [hcomp] at heq
          simp at heq
      | true =>
          cases hp : c.comparePassword input.password u.passwordHash with
          | false =>
              have hcomp : login c st input ua ip now =
                  (Except.error ⟨"Invalid credentials", 401, "INVALID_CREDENTIALS"⟩, st) := by
                simp [login, hf, ha, hp]
              rw [hcomp] at heq
              simp at heq
          | true =>
              have hcomp : login c st input ua ip now =
                  (Except.ok
                    { accessToken :=
                        c.signAccessToken { id := u.id, email := u.email, role := u.role },
                      refreshToken :=
                        c.signRefreshToken { id := u.id, email := u.email, role := u.role },
                      user := { id := u.id, email := u.email,
                                fullName := u.fullName, role := u.role } },
                    createSession c st u.id
                      (c.signRefreshToken { id := u.id, email := u.email, role := u.role })
                      ua ip now) := by
                simp [login, hf, ha, hp]
              rw [hcomp] at heq
              simp only [createSession, Prod.mk.injEq, Except.ok.injEq] at heq
              obtain ⟨hres, hst⟩ := heq
              subst hres
              subst hst
              exact ⟨u, rfl, rfl, rfl, rfl⟩

/-- Inversion of a successful `refresh`: the matched session is revoked by
id and the store gains exactly one session row, holding the hash of the
rotated refresh token that is returned to the caller. -/
theorem refresh_ok_inv (c : Crypto) (st : Store) (t : String)
    (ua ip : Option String) (now : Int) (res : RefreshResult) (st' : Store)
    (heq : refresh c st t ua ip now true = (Except.ok res, st')) :
    ∃ p s, c.verifyRefreshToken t = some p ∧
      findSessionByHash st.sessions (c.hashToken t) = some s ∧
      res.refreshToken =
        c.signRefreshToken { id := p.id, email := p.email, role := p.role } ∧
      st'.users = st.users ∧
      st'.sessions = revokeSessionById st.sessions s.id now ++
        [{ id := st.nextSessionId, userId := s.userId,
           refreshTokenHash := c.hashToken res.refreshToken,
           expiresAt := now + sevenDaysMs, revokedAt := none,
           userAgent := ua, ipAddress := ip }] := by
  cases hv : c.verifyRefreshToken t with
  | none =>
      have hcomp : refresh c st t ua ip now true =
          (Except.error ⟨"Invalid refresh token", 401, "INVALID_REFRESH_TOKEN"⟩, st) := by
        simp [refresh, hv]
      rw [hcomp] at heq
      simp at heq
  | some p =>
      cases hfind : findSessionByHash st.sessions (c.hashToken t) with
      | none =>
          have hcomp : refresh c st t ua ip now true =
              (Except.error ⟨"Refresh token not found", 401, "INVALID_REFRESH_TOKEN"⟩, st) := by
            simp [refresh, hv, hfind]
          rw [hcomp] at heq
          simp at heq
      | some w =>
          by_cases he : w.expiresAt < now
          · have hcomp : refresh c st t ua ip now true =
                (Except.error ⟨"Refresh token expired", 401, "REFRESH_TOKEN_EXPIRED"⟩, st) := by
              simp [refresh, hv, hfind, he]
            rw [hcomp] at heq
            simp at heq
          · cases hr : w.revokedAt with
            | some r =>
                have hcomp : refresh c st t ua ip now true =
                    (Except.error
                      ⟨"Token reuse detected - all sessions revoked for security", 401,
                        "TOKEN_REUSE_DETECTED"⟩,
                      revokeAllUserSessions st w.userId now) := by
                  simp [refresh, hv, hfind, he, hr]
                rw [hcomp] at heq
                simp at heq
            | none =>
                have hcomp : refresh c st t ua ip now true =
                    (Except.ok
                      { accessToken :=
                          c.signAccessToken { id := p.id, email := p.email, role := p.role },
                        refreshToken :=
                          c.signRefreshToken { id := p.id, email := p.email, role := p.role } },
                      { st with
                        sessions := revokeSessionById st.sessions w.id now ++
                          [{ id := st.nextSessionId, userId := w.userId,
                             refreshTokenHash :=
                               c.hashToken (c.signRefreshToken
                                 { id := p.id, email := p.email, role := p.role }),
                             expiresAt := now + sevenDaysMs, revokedAt := none,
                             userAgent := ua, ipAddress := ip }],
                        nextSessionId := st.nextSessionId + 1 }) := by
                  simp [refresh, hv, hfind, he, hr]
                rw [hcomp] at heq
                simp only [Prod.mk.injEq, Except.ok.injEq] at heq
                obtain ⟨hres, hst⟩ := heq
                subst hres
                subst hst
                exact ⟨p, w, rfl, rfl, rfl, rfl, rfl⟩

/-- C5: rotation is atomic.  All store writes of `refresh`'s rotation path
happen inside the single transaction (revoke-old + insert-new); when that
transaction fails, the caller receives an error, the store is exactly the
pre-call store, the matched session is still found and still active, and no
session row for the would-be new token exists. -/
theorem refresh_tx_failure_no_partial_state (c : Crypto) (st : Store)
    (t : String) (ua ip : Option String) (now : Int) (p : TokenPayload)
    (s : Session)
    (hv : c.verifyRefreshToken t = some p)
    (hfind : findSessionByHash st.sessions (c.hashToken t) = some s)
    (hexp : ¬ s.expiresAt < now) (hrev : s.revokedAt = none) :
    refresh c st t ua ip now false =
        (Except.error ⟨"Transaction failed", 500, "INTERNAL_ERROR"⟩, st) ∧
      findSessionByHash (refresh c st t ua ip now false).2.sessions
          (c.hashToken t) = some s ∧
      s.revokedAt = none := by
  have h1 : refresh c st t ua ip now false =
      (Except.error ⟨"Transaction failed", 500, "INTERNAL_ERROR"⟩, st) := by
    simp [refresh, hv, hfind, hexp, hrev]
  exact ⟨h1, by rw [h1]; exact hfind, hrev⟩

/-- Witness for C5: with the transaction failing, the concrete store is
returned unchanged and the session is still active. -/
theorem refresh_tx_failure_no_partial_state_witness :
    refresh exCrypto exStore "tokA" none none 1000 false =
        (Except.error ⟨"Transaction failed", 500, "INTERNAL_ERROR"⟩, exStore) ∧
      findSessionByHash (refresh exCrypto exStore "tokA" none none 1000 false).2.sessions
          (exCrypto.hashToken "tokA") = some exSessionA ∧
      exSessionA.revokedAt = none :=
  refresh_tx_failure_no_partial_state exCrypto exStore "tokA" none none 1000
    exPayload exSessionA (by decide) (by decide) (by decide) (by decide)

/-- The concrete hash stand-in appends a character, so it never returns its
input: the one-wayness premise of the storage invariant is satisfiable. -/
theorem exCrypto_hashToken_ne (t : String) : exCrypto.hashToken t ≠ t := by
  intro h
  have hlen := congrArg String.length h
  rw [show exCrypto.hashToken t = t ++ "#" from rfl, String.length_append] at hlen
  have hone : ("#" : String).length = 1 := rfl
  omega

/-- C4: no stored session ever contains the raw refresh token.  Under the
one-wayness premise that the hash never returns its input, every successful
`register`, `login` and `refresh` adds exactly one session row, whose
`refreshTokenHash` field is the hash of the raw refresh token returned to
the caller (returned there once, at issuance) and differs from that raw
token; `logout` never writes any token material at all. -/
theorem no_raw_token_stored (c : Crypto) (honeway : ∀ t, c.hashToken t ≠ t) :
    (∀ (st : Store) (input : RegisterInput) (ua ip : Option String)
        (now : Int) (uid : String) (res : AuthResult) (st' : Store),
        register c st input ua ip now uid = (Except.ok res, st') →
        st'.sessions = st.sessions ++
            [{ id := st.nextSessionId, userId := uid,
               refreshTokenHash := c.hashToken res.refreshToken,
               expiresAt := now + sevenDaysMs, revokedAt := none,
               userAgent := ua, ipAddress := ip }] ∧
          c.hashToken res.refreshToken ≠ res.refreshToken) ∧
      (∀ (st : Store) (input : LoginInput) (ua ip : Option String)
          (now : Int) (res : AuthResult) (st' : Store),
          login c st input ua ip now = (Except.ok res, st') →
          ∃ u : User, st'.sessions = st.sessions ++
              [{ id := st.nextSessionId, userId := u.id,
                 refreshTokenHash := c.hashToken res.refreshToken,
                 expiresAt := now + sevenDaysMs, revokedAt := none,
                 userAgent := ua, ipAddress := ip }] ∧
            c.hashToken res.refreshToken ≠ res.refreshToken) ∧
      (∀ (st : Store) (t : String) (ua ip : Option String) (now : Int)
          (res : RefreshResult) (st' : Store),
          refresh c st t ua ip now true = (Except.ok res, st') →
          ∃ old : Session, st'.sessions = revokeSessionById st.sessions old.id now ++
              [{ id := st.nextSessionId, userId := old.userId,
                 refreshTokenHash := c.hashToken res.refreshToken,
                 expiresAt := now + sevenDaysMs, revokedAt := none,
                 userAgent := ua, ipAddress := ip }] ∧
            c.hashToken res.refreshToken ≠ res.refreshToken) ∧
      (∀ (st : Store) (t : String) (now : Int),
        (logout c st t now).2.sessions.map Session.refreshTokenHash =
          st.sessions.map Session.refreshTokenHash) := by
  refine ⟨?_, ?_, ?_, ?_⟩
  · intro st input ua ip now uid res st' heq
    obtain ⟨-, -, hsess⟩ := register_ok_inv c st input ua ip now uid res st' heq
    exact ⟨hsess, honeway res.refreshToken⟩
  · intro st input ua ip now res st' heq
    obtain ⟨u, -, -, -, hsess⟩ := login_ok_inv c st input ua ip now res st' heq
    exact ⟨u, hsess, honeway res.refreshToken⟩
  · intro st t ua ip now res st' heq
    obtain ⟨p, old, -, -, -, -, hsess⟩ := refresh_ok_inv c st t ua ip now res st' heq
    exact ⟨old, hsess, honeway res.refreshToken⟩
  · intro st t now
    unfold logout
    simp only [List.map_map]
    apply List.map_congr_left
    intro x _
    by_cases hc : (x.refreshTokenHash == c.hashToken t && x.revokedAt.isNone) = true
    · simp [Function.comp, hc]
    · simp [Function.comp, hc]

/-- Witness for C4: a register into the empty store records only the hash
`"ref:u2#"` of the returned raw token `"ref:u2"`, and that hash differs from
the raw token. -/
theorem no_raw_token_stored_witness :
    (register exCrypto ⟨[], [], 0⟩ exRegInput none none 0 "u2").2.sessions =
        ([] : List Session) ++
          [{ id := 0, userId := "u2",
             refreshTokenHash := exCrypto.hashToken "ref:u2",
             expiresAt := 0 + sevenDaysMs, revokedAt := none,
             userAgent := none, ipAddress := none }] ∧
      exCrypto.hashToken "ref:u2" ≠ "ref:u2" :=
  (no_raw_token_stored exCrypto exCrypto_hashToken_ne).1 ⟨[], [], 0⟩ exRegInput
    none none 0 "u2"
    { accessToken := "acc:u2", refreshToken := "ref:u2",
      user := { id := "u2", email := "bob@x.com", fullName := "Bob",
                role := Role.DOCTOR } }
    (register exCrypto ⟨[], [], 0⟩ exRegInput none none 0 "u2").2 rfl

/-- Modelled from the spec: "insert Session with `expiresAt = now +
refreshTTL`", where `refreshTTL` is the refresh expiry configured at process
start (`JWT_REFRESH_EXPIRE`).  The claimed expiry, to be compared with what
the code computes. -/
def specSessionExpiresAt (creation ttlMs : Int) : Int := creation + ttlMs

/-- One day in milliseconds: the refresh TTL when `JWT_REFRESH_EXPIRE` is
configured as `1d` instead of the default `7d`. -/
def oneDayMs : Int := 86400000

/-- Counterexample to C8: with the configured refresh TTL set to one day,
the session created by `register` at time 0 still expires at `sevenDaysMs`
(the hardcoded `setDate(getDate() + 7)`), not at `0 + oneDayMs` as the claim
requires for every configured TTL. -/
theorem session_expiry_ignores_config_cex :
    (register exCrypto ⟨[], [], 0⟩ exRegInput none none 0 "u2").2.sessions.map
        Session.expiresAt = [sevenDaysMs] ∧
      sevenDaysMs ≠ specSessionExpiresAt 0 oneDayMs := by
  constructor
  · decide
  · decide

/-- C8 (amended): every session created by `register`, `login`, or `refresh`
has `expiresAt` equal to its creation time plus a hardcoded seven days; the
configured refresh TTL (`JWT_REFRESH_EXPIRE`) is never consulted, so the
claimed equality holds only when that TTL is exactly seven days. -/
theorem session_expiry_is_seven_days (c : Crypto) :
    (∀ (st : Store) (input : RegisterInput) (ua ip : Option String)
        (now : Int) (uid : String) (res : AuthResult) (st' : Store),
        register c st input ua ip now uid = (Except.ok res, st') →
        ∃ ns : Session, st'.sessions = st.sessions ++ [ns] ∧
          ns.expiresAt = specSessionExpiresAt now sevenDaysMs) ∧
      (∀ (st : Store) (input : LoginInput) (ua ip : Option String)
          (now : Int) (res : AuthResult) (st' : Store),
          login c st input ua ip now = (Except.ok res, st') →
          ∃ ns : Session, st'.sessions = st.sessions ++ [ns] ∧
            ns.expiresAt = specSessionExpiresAt now sevenDaysMs) ∧
      (∀ (st : Store) (t : String) (ua ip : Option String) (now : Int)
          (res : RefreshResult) (st' : Store),
          refresh c st t ua ip now true = (Except.ok res, st') →
          ∃ (sid : Nat) (ns : Session),
            st'.sessions = revokeSessionById st.sessions sid now ++ [ns] ∧
              ns.expiresAt = specSessionExpiresAt now sevenDaysMs) := by
  refine ⟨?_, ?_, ?_⟩
  · intro st input ua ip now uid res st' heq
    obtain ⟨-, -, hsess⟩ := register_ok_inv c st input ua ip now uid res st' heq
    exact ⟨_, hsess, rfl⟩
  · intro st input ua ip now res st' heq
    obtain ⟨u, -, -, -, hsess⟩ := login_ok_inv c st input ua ip now res st' heq
    exact ⟨_, hsess, rfl⟩
  · intro st t ua ip now res st' heq
    obtain ⟨p, old, -, -, -, -, hsess⟩ := refresh_ok_inv c st t ua ip now res st' heq
    exact ⟨old.id, _, hsess, rfl⟩

/-- Witness for the amended C8 at a concrete register call. -/
theorem session_expiry_is_seven_days_witness :
    ∃ ns : Session,
      (register exCrypto ⟨[], [], 0⟩ exRegInput none none 0 "u2").2.sessions =
        ([] : List Session) ++ [ns] ∧
      ns.expiresAt = specSessionExpiresAt 0 sevenDaysMs :=
  (session_expiry_is_seven_days exCrypto).1 ⟨[], [], 0⟩ exRegInput
    none none 0 "u2"
    { accessToken := "acc:u2", refreshToken := "ref:u2",
      user := { id := "u2", email := "bob@x.com", fullName := "Bob",
                role := Role.DOCTOR } }
    (register exCrypto ⟨[], [], 0⟩ exRegInput none none 0 "u2").2 rfl

/-- A session for the token `"tokA"` that is both revoked and expired. -/
def cexSessionRevokedExpired : Session :=
  { id := 0, userId := "u1", refreshTokenHash := "tokA#", expiresAt := 100,
    revokedAt := some 50, userAgent := none, ipAddress := none }

/-- Another, still-active session of the same user. -/
def cexSessionOther : Session :=
  { id := 1, userId := "u1", refreshTokenHash := "other#",
    expiresAt := sevenDaysMs, revokedAt := none,
    userAgent := none, ipAddress := none }

/-- A store where the presented token is in a terminal (revoked and expired)
state while the user still has another active session. -/
def cexStore : Store :=
  { users := [exUser],
    sessions := [cexSessionRevokedExpired, cexSessionOther],
    nextSessionId := 2 }

/-- Counterexample to C2: the session of `"tokA"` is revoked (and expired) —
a reuse attempt in a terminal state — yet `refresh` fails with
`REFRESH_TOKEN_EXPIRED` and returns the store unchanged: `revokeAllForUser`
is not triggered and the user's other session stays active. -/
theorem refresh_terminal_reuse_no_revoke_cex :
    refresh exCrypto cexStore "tokA" none none 1000 true =
        (Except.error ⟨"Refresh token expired", 401, "REFRESH_TOKEN_EXPIRED"⟩,
          cexStore) ∧
      cexSessionRevokedExpired.revokedAt = some 50 ∧
      cexSessionRevokedExpired.expiresAt < 1000 ∧
      cexSessionOther ∈ cexStore.sessions ∧
      cexSessionOther.userId = cexSessionRevokedExpired.userId ∧
      cexSessionOther.revokedAt = none := by
  exact ⟨rfl, by decide, by decide, by decide, by decide, by decide⟩

/-- C2 (amended): `revokeAllForUser` fires exactly on the revoked-but-not-
expired path.  A refresh presenting a token whose session is revoked and not
yet expired revokes every session of that user and fails with
`TOKEN_REUSE_DETECTED`; a refresh presenting a token whose session is
expired fails with `REFRESH_TOKEN_EXPIRED` and revokes nothing. -/
theorem refresh_reuse_revokes_all_only_if_unexpired (c : Crypto) (st : Store)
    (t : String) (ua ip : Option String) (now : Int) (txOk : Bool)
    (p : TokenPayload) (s : Session)
    (hv : c.verifyRefreshToken t = some p)
    (hfind : findSessionByHash st.sessions (c.hashToken t) = some s) :
    (¬ s.expiresAt < now → s.revokedAt.isSome = true →
        refresh c st t ua ip now txOk =
            (Except.error
              ⟨"Token reuse detected - all sessions revoked for security", 401,
                "TOKEN_REUSE_DETECTED"⟩,
              revokeAllUserSessions st s.userId now) ∧
          ∀ s2 ∈ (refresh c st t ua ip now txOk).2.sessions,
            s2.userId = s.userId → s2.revokedAt ≠ none) ∧
      (s.expiresAt < now →
        refresh c st t ua ip now txOk =
          (Except.error ⟨"Refresh token expired", 401, "REFRESH_TOKEN_EXPIRED"⟩,
            st)) := by
  constructor
  · intro hexp hrev
    have h1 : refresh c st t ua ip now txOk =
        (Except.error
          ⟨"Token reuse detected - all sessions revoked for security", 401,
            "TOKEN_REUSE_DETECTED"⟩,
          revokeAllUserSessions st s.userId now) := by
      simp [refresh, hv, hfind, hexp, hrev]
    refine ⟨h1, ?_⟩
    rw [h1]
    exact fun s2 hs2 hu => revokeAll_revokes_user st s.userId now s2 hs2 hu
  · intro hexp
    simp [refresh, hv, hfind, hexp]

/-- A session for `"tokA"` that is revoked but not yet expired. -/
def cexSessionRevokedFresh : Session :=
  { id := 0, userId := "u1", refreshTokenHash := "tokA#",
    expiresAt := sevenDaysMs, revokedAt := some 5,
    userAgent := none, ipAddress := none }

/-- A store where the presented token was already rotated away (revoked,
unexpired) and the user still has another active session. -/
def cexStore2 : Store :=
  { users := [exUser],
    sessions := [cexSessionRevokedFresh, cexSessionOther],
    nextSessionId := 2 }

/-- Witness for the amended C2 on the revoked-but-unexpired store. -/
theorem refresh_reuse_revokes_all_only_if_unexpired_witness :
    refresh exCrypto cexStore2 "tokA" none none 1000 true =
        (Except.error
          ⟨"Token reuse detected - all sessions revoked for security", 401,
            "TOKEN_REUSE_DETECTED"⟩,
          revokeAllUserSessions cexStore2 cexSessionRevokedFresh.userId 1000) ∧
      ∀ s2 ∈ (refresh exCrypto cexStore2 "tokA" none none 1000 true).2.sessions,
        s2.userId = cexSessionRevokedFresh.userId → s2.revokedAt ≠ none :=
  (refresh_reuse_revokes_all_only_if_unexpired exCrypto cexStore2 "tokA"
      none none 1000 true exPayload cexSessionRevokedFresh
      (by decide) (by decide)).1 (by decide) (by decide)

/-- A deactivated copy of the concrete user. -/
def exUserInactive : User :=
  { id := "u1", email := "alice@x.com", passwordHash := "secret1!",
    fullName := "Alice", role := Role.PATIENT, isActive := false }

/-- Witness for C9: the deactivated user's refresh still succeeds with a
fresh token pair. -/
theorem refresh_ignores_user_record_witness :
    (refresh exCrypto ⟨[exUserInactive], [exSessionA], 1⟩ "tokA"
        none none 1000 true).1 =
      Except.ok
        { accessToken :=
            exCrypto.signAccessToken
              { id := exPayload.id, email := exPayload.email,
                role := exPayload.role },
          refreshToken :=
            exCrypto.signRefreshToken
              { id := exPayload.id, email := exPayload.email,
                role := exPayload.role } } :=
  (refresh_ignores_user_record exCrypto [exUserInactive] [exSessionA] 1 "tokA"
      none none 1000 exPayload exSessionA exUserInactive
      (by decide) (by decide) (by decide) (by decide) (by decide)
      (by decide)).2

/-- Splitting a hash lookup over an appended session list. -/
theorem findSessionByHash_append (l1 l2 : List Session) (h : String) :
    findSessionByHash (l1 ++ l2) h =
      (findSessionByHash l1 h).or (findSessionByHash l2 h) := by
  unfold findSessionByHash
  exact List.find?_append

/-- C1: rotation invalidates the predecessor.  After a successful
`refresh(tokenA)` that yields `tokenB`, presenting `tokenA` again fails with
`TOKEN_REUSE_DETECTED` (401) and, before returning, revokes every session of
that user, so a subsequent `refresh(tokenB)` also fails with
`TOKEN_REUSE_DETECTED`. -/
theorem refresh_reuse_detection_chain (c : Crypto) (st : Store) (tA : String)
    (ua1 ip1 ua2 ip2 ua3 ip3 : Option String) (now1 now2 now3 : Int)
    (p pB : TokenPayload) (sA : Session)
    (hv : c.verifyRefreshToken tA = some p)
    (hfind : findSessionByHash st.sessions (c.hashToken tA) = some sA)
    (hexp1 : ¬ sA.expiresAt < now1) (hrev1 : sA.revokedAt = none)
    (hvB : c.verifyRefreshToken
      (c.signRefreshToken { id := p.id, email := p.email, role := p.role }) =
        some pB)
    (hfresh : ∀ s ∈ st.sessions, s.refreshTokenHash ≠
      c.hashToken (c.signRefreshToken
        { id := p.id, email := p.email, role := p.role }))
    (hexp2 : ¬ sA.expiresAt < now2)
    (hexp3 : ¬ now1 + sevenDaysMs < now3) :
    (refresh c st tA ua1 ip1 now1 true).1 =
        Except.ok
          { accessToken :=
              c.signAccessToken { id := p.id, email := p.email, role := p.role },
            refreshToken :=
              c.signRefreshToken { id := p.id, email := p.email, role := p.role } } ∧
      (refresh c (refresh c st tA ua1 ip1 now1 true).2 tA ua2 ip2 now2 true).1 =
        Except.error
          ⟨"Token reuse detected - all sessions revoked for security", 401,
            "TOKEN_REUSE_DETECTED"⟩ ∧
      (∀ s2 ∈ (refresh c (refresh c st tA ua1 ip1 now1 true).2 tA
            ua2 ip2 now2 true).2.sessions,
          s2.userId = sA.userId → s2.revokedAt ≠ none) ∧
      (refresh c
          (refresh c (refresh c st tA ua1 ip1 now1 true).2 tA ua2 ip2 now2 true).2
          (c.signRefreshToken { id := p.id, email := p.email, role := p.role })
          ua3 ip3 now3 true).1 =
        Except.error
          ⟨"Token reuse detected - all sessions revoked for security", 401,
            "TOKEN_REUSE_DETECTED"⟩ := by
  have h1 : refresh c st tA ua1 ip1 now1 true =
      (Except.ok
        { accessToken :=
            c.signAccessToken { id := p.id, email := p.email, role := p.role },
          refreshToken :=
            c.signRefreshToken { id := p.id, email := p.email, role := p.role } },
        { st with
          sessions := revokeSessionById st.sessions sA.id now1 ++
            [{ id := st.nextSessionId, userId := sA.userId,
               refreshTokenHash := c.hashToken (c.signRefreshToken
                 { id := p.id, email := p.email, role := p.role }),
               expiresAt := now1 + sevenDaysMs, revokedAt := none,
               userAgent := ua1, ipAddress := ip1 }],
          nextSessionId := st.nextSessionId + 1 }) := by
    simp [refresh, hv, hfind, hexp1, hrev1]
  have hfind2 : findSessionByHash
      (revokeSessionById st.sessions sA.id now1 ++
        [{ id := st.nextSessionId, userId := sA.userId,
           refreshTokenHash := c.hashToken (c.signRefreshToken
             { id := p.id, email := p.email, role := p.role }),
           expiresAt := now1 + sevenDaysMs, revokedAt := none,
           userAgent := ua1, ipAddress := ip1 }]) (c.hashToken tA) =
      some { sA with revokedAt := some now1 } := by
    rw [findSessionByHash_append, findSessionByHash_revokeById, hfind]
    simp
  have h2 : refresh c
      { st with
        sessions := revokeSessionById st.sessions sA.id now1 ++
          [{ id := st.nextSessionId, userId := sA.userId,
             refreshTokenHash := c.hashToken (c.signRefreshToken
               { id := p.id, email := p.email, role := p.role }),
             expiresAt := now1 + sevenDaysMs, revokedAt := none,
             userAgent := ua1, ipAddress := ip1 }],
        nextSessionId := st.nextSessionId + 1 } tA ua2 ip2 now2 true =
      (Except.error
        ⟨"Token reuse detected - all sessions revoked for security", 401,
          "TOKEN_REUSE_DETECTED"⟩,
        revokeAllUserSessions
          { st with
            sessions := revokeSessionById st.sessions sA.id now1 ++
              [{ id := st.nextSessionId, userId := sA.userId,
                 refreshTokenHash := c.hashToken (c.signRefreshToken
                   { id := p.id, email := p.email, role := p.role }),
                 expiresAt := now1 + sevenDaysMs, revokedAt := none,
                 userAgent := ua1, ipAddress := ip1 }],
            nextSessionId := st.nextSessionId + 1 } sA.userId now2) := by
    simp [refresh, hv, hfind2, hexp2]
  have hnoneA : findSessionByHash (revokeSessionById st.sessions sA.id now1)
      (c.hashToken (c.signRefreshToken
        { id := p.id, email := p.email, role := p.role })) = none := by
    unfold findSessionByHash
    apply List.find?_eq_none.mpr
    intro x hx
    unfold revokeSessionById at hx
    simp only [List.mem_map] at hx
    obtain ⟨y, hy, rfl⟩ := hx
    have hne := hfresh y hy
    by_cases hid : (y.id == sA.id) = true
    · simpa [hid] using hne
    · simpa [hid] using hne
  have hfindSt1 : findSessionByHash
      (revokeSessionById st.sessions sA.id now1 ++
        [{ id := st.nextSessionId, userId := sA.userId,
           refreshTokenHash := c.hashToken (c.signRefreshToken
             { id := p.id, email := p.email, role := p.role }),
           expiresAt := now1 + sevenDaysMs, revokedAt := none,
           userAgent := ua1, ipAddress := ip1 }])
      (c.hashToken (c.signRefreshToken
        { id := p.id, email := p.email, role := p.role })) =
      some { id := st.nextSessionId, userId := sA.userId,
             refreshTokenHash := c.hashToken (c.signRefreshToken
               { id := p.id, email := p.email, role := p.role }),
             expiresAt := now1 + sevenDaysMs, revokedAt := none,
             userAgent := ua1, ipAddress := ip1 } := by
    rw [findSessionByHash_append, hnoneA]
    simp [findSessionByHash]
  have hfind3 := findSessionByHash_revokeAll
    { st with
      sessions := revokeSessionById st.sessions sA.id now1 ++
        [{ id := st.nextSessionId, userId := sA.userId,
           refreshTokenHash := c.hashToken (c.signRefreshToken
             { id := p.id, email := p.email, role := p.role }),
           expiresAt := now1 + sevenDaysMs, revokedAt := none,
           userAgent := ua1, ipAddress := ip1 }],
      nextSessionId := st.nextSessionId + 1 } sA.userId now2
    (c.hashToken (c.signRefreshToken
      { id := p.id, email := p.email, role := p.role }))
  rw [show ({ st with
      sessions := revokeSessionById st.sessions sA.id now1 ++
        [{ id := st.nextSessionId, userId := sA.userId,
           refreshTokenHash := c.hashToken (c.signRefreshToken
             { id := p.id, email := p.email, role := p.role }),
           expiresAt := now1 + sevenDaysMs, revokedAt := none,
           userAgent := ua1, ipAddress := ip1 }],
      nextSessionId := st.nextSessionId + 1 } : Store).sessions =
      revokeSessionById st.sessions sA.id now1 ++
        [{ id := st.nextSessionId, userId := sA.userId,
           refreshTokenHash := c.hashToken (c.signRefreshToken
             { id := p.id, email := p.email, role := p.role }),
           expiresAt := now1 + sevenDaysMs, revokedAt := none,
           userAgent := ua1, ipAddress := ip1 }] from rfl, hfindSt1] at hfind3
  simp only [Option.map_some'] at hfind3
  simp only [beq_self_eq_true, Option.isNone_none, Bool.and_self,
    eq_self_iff_true, if_true] at hfind3
  have h3 : (refresh c
      (revokeAllUserSessions
        { st with
          sessions := revokeSessionById st.sessions sA.id now1 ++
            [{ id := st.nextSessionId, userId := sA.userId,
               refreshTokenHash := c.hashToken (c.signRefreshToken
                 { id := p.id, email := p.email, role := p.role }),
               expiresAt := now1 + sevenDaysMs, revokedAt := none,
               userAgent := ua1, ipAddress := ip1 }],
          nextSessionId := st.nextSessionId + 1 } sA.userId now2)
      (c.signRefreshToken { id := p.id, email := p.email, role := p.role })
      ua3 ip3 now3 true).1 =
      Except.error
        ⟨"Token reuse detected - all sessions revoked for security", 401,
          "TOKEN_REUSE_DETECTED"⟩ := by
    simp [refresh, hvB, hfind3, hexp3]
  refine ⟨?_, ?_, ?_, ?_⟩
  · simp only [h1]
  · simp only [h1, h2]
  · simp only [h1, h2]
    exact fun s2 hs2 hu => revokeAll_revokes_user _ _ _ s2 hs2 hu
  · simp only [h1, h2]
    exact h3

/-- Witness for C1: the full rotate-reuse-revoke chain on the concrete
store, at times 10, 20 and 30. -/
theorem refresh_reuse_detection_chain_witness :
    (refresh exCrypto exStore "tokA" none none 10 true).1 =
        Except.ok
          { accessToken := exCrypto.signAccessToken
              { id := exPayload.id, email := exPayload.email,
                role := exPayload.role },
            refreshToken := exCrypto.signRefreshToken
              { id := exPayload.id, email := exPayload.email,
                role := exPayload.role } } ∧
      (refresh exCrypto (refresh exCrypto exStore "tokA" none none 10 true).2
          "tokA" none none 20 true).1 =
        Except.error
          ⟨"Token reuse detected - all sessions revoked for security", 401,
            "TOKEN_REUSE_DETECTED"⟩ ∧
      (∀ s2 ∈ (refresh exCrypto
            (refresh exCrypto exStore "tokA" none none 10 true).2
            "tokA" none none 20 true).2.sessions,
          s2.userId = exSessionA.userId → s2.revokedAt ≠ none) ∧
      (refresh exCrypto
          (refresh exCrypto (refresh exCrypto exStore "tokA" none none 10 true).2
              "tokA" none none 20 true).2
          (exCrypto.signRefreshToken
            { id := exPayload.id, email := exPayload.email,
              role := exPayload.role })
          none none 30 true).1 =
        Except.error
          ⟨"Token reuse detected - all sessions revoked for security", 401,
            "TOKEN_REUSE_DETECTED"⟩ :=
  refresh_reuse_detection_chain exCrypto exStore "tokA" none none none none
    none none 10 20 30 exPayload exPayload exSessionA
    (by decide) (by decide) (by decide) (by decide) (by decide) (by decide)
    (by decide) (by decide)

end Auth
